import Mathlib

/-!
Verification development for a cross-platform framebuffer library
(`src/lib.rs`).  The library owns a GPU pixel-unpack buffer, maps it into
CPU memory through an RAII guard (`MMap`), lets a `Painter` fill the
mapped pixels, and each frame uploads the buffer into a texture and
renders a full-screen quad.

The embedding below is a shallow functional model of `src/lib.rs`:

* OpenGL driver state is an explicit record (`GLState`) threaded through
  every operation; GL calls append events to a trace so that the ordering
  of driver calls made by `Framebuffer.draw` can be stated.
* `glMapBufferRange` is modelled after the OpenGL specification: mapping
  a buffer that is already mapped generates `INVALID_OPERATION` and
  returns the null pointer; an additional `mapFails` flag models any
  other driver failure that returns null.  Pointers are abstract: `0` is
  the null pointer, a successful mapping returns the non-null address `1`
  and exposes the buffer's backing store.
* Rust `panic!` / `.unwrap()` on the failure paths is modelled with
  `Except GLState` (the `error` carries the driver state at the moment of
  the panic, after any drop glue has run) or with `Option` where no state
  needs to be carried.
-/

/-- One pixel of the single supported format: 4 unsigned bytes (R, G, B, A). -/
structure Pixel where
  r : Nat
  g : Nat
  b : Nat
  a : Nat
deriving Repr, DecidableEq, Inhabited

/-- GL enum values used by the source (numeric values of the `glow` constants). -/
def PIXEL_UNPACK_BUFFER : Nat := 0x88EC

def COLOR_BUFFER_BIT : Nat := 0x4000

def TEXTURE_2D : Nat := 0x0DE1

def TRIANGLE_STRIP : Nat := 0x0005

def RGBA : Nat := 0x1908

def UNSIGNED_BYTE : Nat := 0x1401

/-- A window-system pixel-format candidate, as consulted by
`Framebuffer::gl_config_picker`: `supports_transparency()` returns
`Option<bool>` and `num_samples()` a sample count. -/
structure Config where
  supports_transparency : Option Bool
  num_samples : Nat
deriving Repr, DecidableEq

/-- The closure reduced over the candidates in `Framebuffer::gl_config_picker`
(src/lib.rs lines 128-137): the incoming `config` replaces the accumulator iff
it supports transparency while the accumulator does not, or it has strictly
fewer samples. -/
def pickStep (accum config : Config) : Config :=
  let transparency_check :=
    (config.supports_transparency.getD false) && !(accum.supports_transparency.getD false)
  if transparency_check || decide (config.num_samples < accum.num_samples) then
    config
  else
    accum

/-- One driver call recorded in the trace.  Constructors carry the arguments
the source passes (GL enum values, object handles, geometry parameters);
`paint` marks the CPU-side invocation of the painter between acquisition and
release of the mapping. -/
inductive GLEvent where
  | clear (mask : Nat)
  | bindBuffer (target buffer : Nat)
  | mapBufferRange
  | unmapBuffer
  | bufferDataSize
  | paint
  | bindTexture (target texture : Nat)
  | texSubImage2D (texture level xoffset yoffset width height format type4 : Nat)
  | useProgram (program : Nat)
  | bindVertexArray (vao : Nat)
  | drawArrays (mode first count : Nat)
  | swapBuffers
deriving Repr, DecidableEq

/-- The OpenGL driver state the source interacts with: the single
pixel-unpack buffer's backing store and mapped flag, an environment-fault
flag (`mapFails`: the driver returns a null mapping even for a legal
request), and the trace of calls issued so far. -/
structure GLState where
  bufContents : List Pixel
  bufMapped : Bool
  mapFails : Bool
  trace : List GLEvent
deriving Repr, DecidableEq

namespace GLState

/-- Record one driver call in the trace. -/
def emit (gl : GLState) (e : GLEvent) : GLState :=
  { gl with trace := gl.trace ++ [e] }

def clear (gl : GLState) (mask : Nat) : GLState := gl.emit (.clear mask)

def bind_buffer (gl : GLState) (target buffer : Nat) : GLState :=
  gl.emit (.bindBuffer target buffer)

def bind_texture (gl : GLState) (target texture : Nat) : GLState :=
  gl.emit (.bindTexture target texture)

def use_program (gl : GLState) (program : Nat) : GLState :=
  gl.emit (.useProgram program)

def bind_vertex_array (gl : GLState) (vao : Nat) : GLState :=
  gl.emit (.bindVertexArray vao)

def draw_arrays (gl : GLState) (mode first count : Nat) : GLState :=
  gl.emit (.drawArrays mode first count)

def texture_sub_image_2d (gl : GLState)
    (texture level xoffset yoffset width height format type4 : Nat) : GLState :=
  gl.emit (.texSubImage2D texture level xoffset yoffset width height format type4)

/-- `glMapBufferRange`, modelled after the OpenGL specification: mapping an
already-mapped buffer generates `INVALID_OPERATION` and returns the null
pointer (`0`); any other driver fault (`mapFails`) also returns null.  A
successful mapping returns the abstract non-null address `1` at which the
buffer's backing store is CPU-visible. -/
def map_buffer_range (gl : GLState) : Nat × GLState :=
  if gl.bufMapped || gl.mapFails then (0, gl.emit .mapBufferRange)
  else (1, { gl.emit .mapBufferRange with bufMapped := true })

/-- `glUnmapBuffer`: ends the mapping and synchronizes the CPU-visible
contents `view` of the mapped region back into the buffer's backing store. -/
def unmap_buffer (gl : GLState) (view : List Pixel) : GLState :=
  { gl.emit .unmapBuffer with bufMapped := false, bufContents := view }

end GLState

/-- `PixelBuffer<Format>` (src/lib.rs lines 44-48): a GPU buffer handle plus
the stored element count; the format tag is fixed to `Pixel`. -/
structure PixelBuffer where
  raw_buffer : Nat
  length : Nat
deriving Repr, DecidableEq

/-- `MMap<'ctx, 'buffer, Format>` (src/lib.rs lines 50-54): the scoped
mapped-memory guard.  `mapped_memory` is the raw pointer returned by the
driver (`0` would be null); `view` models the pixel contents of the mapped
region behind that pointer, which the source reaches through the pointer. -/
structure MMap where
  buffer : PixelBuffer
  mapped_memory : Nat
  view : List Pixel
deriving Repr, DecidableEq

/-- `<MMap as AsMut<[Format]>>::as_mut` (src/lib.rs lines 56-62):
`slice::from_raw_parts_mut(self.mapped_memory, self.buffer.length)` exposes
exactly `buffer.length` elements starting at the mapped pointer, whatever
the allocation holds (memory beyond the tracked contents is arbitrary,
modelled by the default pixel). -/
def MMap.as_mut (m : MMap) : List Pixel :=
  List.takeD m.buffer.length m.view default

/-- `MMap::new` (src/lib.rs lines 64-92): binds the buffer to
`PIXEL_UNPACK_BUFFER`, requests a read/write mapping of its full extent, and
panics (`error`) when the driver returns a null mapping; otherwise produces
the guard holding the mapped pointer. -/
def MMap.new (gl : GLState) (buffer : PixelBuffer) :
    Except GLState (MMap × GLState) :=
  let gl := gl.bind_buffer PIXEL_UNPACK_BUFFER buffer.raw_buffer
  let r := gl.map_buffer_range
  let mapped_memory := r.1
  let gl := r.2
  if mapped_memory = 0 then
    .error gl
  else
    .ok ({ buffer := buffer, mapped_memory := mapped_memory,
           view := gl.bufContents }, gl)

/-- `<MMap as Drop>::drop` (src/lib.rs lines 94-104): re-binds the buffer and
issues `glUnmapBuffer`, which syncs the CPU writes (the guard's `view`) to
the GPU buffer. -/
def MMap.drop (m : MMap) (gl : GLState) : GLState :=
  let gl := gl.bind_buffer PIXEL_UNPACK_BUFFER m.buffer.raw_buffer
  gl.unmap_buffer m.view

/-- `Framebuffer<PixelFormat>` (src/lib.rs lines 106-119), restricted to the
GL-visible fields the claims are about; the window surface and context
handles are external resources with no further structure. -/
structure Framebuffer where
  width : Nat
  height : Nat
  pixel_buffer : PixelBuffer
  texture : Nat
  vao : Nat
  program : Nat
deriving Repr, DecidableEq

namespace Framebuffer

/-- `Framebuffer::gl_config_picker` (src/lib.rs lines 126-139): Rust's
`Iterator::reduce` seeds the accumulator with the first candidate and folds
`pickStep` over the rest; on an empty candidate set `reduce` yields `None`
and the source's `.unwrap()` panics, modelled by `none`. -/
def gl_config_picker (configs : List Config) : Option Config :=
  match configs with
  | [] => none
  | c :: rest => some (rest.foldl pickStep c)

/-- `Framebuffer::create_pixel_buffer` (src/lib.rs lines 333-350): creates a
buffer handle, binds it, allocates `length` elements of uninitialized
storage with `STREAM_DRAW`, and returns the handle together with the stored
`length`.  The fresh handle is passed in (`pbo`), GPU handle allocation
being a driver counter the claims do not inspect. -/
def create_pixel_buffer (pbo : Nat) (gl : GLState) (length : Nat) :
    PixelBuffer × GLState :=
  let gl := gl.bind_buffer PIXEL_UNPACK_BUFFER pbo
  let gl := { gl.emit .bufferDataSize with
                bufContents := List.replicate length default }
  ({ raw_buffer := pbo, length := length }, gl)

/-- `Framebuffer::compile_shader` (src/lib.rs lines 259-271): submits the
source text, compiles, and when the driver reports failure
(`compile_status = false`) logs the driver's diagnostic text — yet still
returns the shader object either way.  The driver's compile verdict and
info log are inputs; the second component collects the lines printed. -/
def compile_shader (shader : Nat) (_source : String) (compile_status : Bool)
    (info_log : String) : Nat × List String :=
  if !compile_status then
    (shader, ["ERROR::SHADER::COMPILATION_FAILED\n" ++ info_log])
  else
    (shader, [])

/-- `Framebuffer::create_shader_program` (src/lib.rs lines 273-292): attaches
both shaders and links; when the driver reports link failure
(`link_status = false`) logs the diagnostic text — yet still returns the
program object either way. -/
def create_shader_program (program _vertex_shader _fragment_shader : Nat)
    (link_status : Bool) (info_log : String) : Nat × List String :=
  if !link_status then
    (program, ["ERROR::PROGRAM::LINKING_FAILED\n" ++ info_log])
  else
    (program, [])

/-- `Framebuffer::init_with_ext` (src/lib.rs lines 150-257), modelling the
GL-visible construction steps: pixel-format selection via `gl_config_picker`
(whose `.unwrap()` panics — `none` — when no candidate configuration exists),
then, window/surface/context creation being external effects, allocation of
the pixel buffer with `size = width * height` elements.  GPU object handles
are successive naturals in creation order (vertex shader 1, fragment shader
2, program 3, vertex array 4, pixel buffer 5, texture 6); the optional
clear-color extension only sets a float clear color and is not modelled. -/
def init_with_ext (configs : List Config) (width height : Nat) :
    Option (Framebuffer × GLState) :=
  let size := width * height
  match gl_config_picker configs with
  | none => none
  | some _gl_config =>
    let gl : GLState :=
      { bufContents := [], bufMapped := false, mapFails := false, trace := [] }
    let r := create_pixel_buffer 5 gl size
    let pixel_buffer := r.1
    let gl := r.2
    some ({ width := width, height := height, pixel_buffer := pixel_buffer,
            texture := 6, vao := 4, program := 3 }, gl)

/-- `Framebuffer::draw` (src/lib.rs lines 369-418).  The painter is the
external `Painter::paint` callback: it receives the guard's pixel view and
either returns the pixels it wrote (`some`) or panics mid-fill (`none`).
Rust drop glue runs the guard's `drop` on the unwind path before the panic
propagates out of `draw` (`error` carries the driver state at that point). -/
def draw (fb : Framebuffer) (painter : List Pixel → Option (List Pixel))
    (gl : GLState) : Except GLState GLState :=
  let gl := gl.clear COLOR_BUFFER_BIT
  match MMap.new gl fb.pixel_buffer with
  | .error gl => .error gl
  | .ok (guard, gl) =>
    let gl := gl.emit .paint
    match painter guard.as_mut with
    | none => .error (MMap.drop guard gl)
    | some written =>
      let guard := { guard with view := written }
      let gl := MMap.drop guard gl
      let gl := gl.bind_texture TEXTURE_2D fb.texture
      let gl := gl.bind_buffer PIXEL_UNPACK_BUFFER fb.pixel_buffer.raw_buffer
      let gl := gl.texture_sub_image_2d fb.texture 0 0 0 fb.width fb.height
        RGBA UNSIGNED_BYTE
      let gl := gl.use_program fb.program
      let gl := gl.bind_vertex_array fb.vao
      let gl := gl.draw_arrays TRIANGLE_STRIP 0 4
      .ok (gl.emit .swapBuffers)

end Framebuffer

/-- `true` exactly on the panic outcome of a fallible GL computation. -/
def glPanicked : Except GLState α → Bool
  | .error _ => true
  | .ok _ => false

/-- The driver state when control leaves a fallible GL computation, whether
by returning normally or by unwinding from a panic. -/
def glExit : Except GLState GLState → GLState
  | .error gl => gl
  | .ok gl => gl

/-- The guard produced by an acquisition, when one was produced at all. -/
def mmapGuard : Except GLState (MMap × GLState) → Option MMap
  | .error _ => none
  | .ok (m, _) => some m

/-- A trace contains exactly one `unmapBuffer`, and no buffer-to-texture
transfer occurs before it. -/
def unmapOnceBeforeUpload (t : List GLEvent) : Prop :=
  ∃ l1 l2, t = l1 ++ GLEvent.unmapBuffer :: l2 ∧
    (∀ e ∈ l1, e ≠ GLEvent.unmapBuffer ∧
      (∀ texture level xo yo w h fmt ty,
        e ≠ GLEvent.texSubImage2D texture level xo yo w h fmt ty)) ∧
    (∀ e ∈ l2, e ≠ GLEvent.unmapBuffer)

/-- Concrete framebuffer used by the witnesses: 1x1, with the GPU handles
`init_with_ext` would assign. -/
def fbW : Framebuffer :=
  { width := 1, height := 1, pixel_buffer := { raw_buffer := 5, length := 1 },
    texture := 6, vao := 4, program := 3 }

/-- Concrete idle driver state used by the witnesses: one-pixel store,
nothing mapped, no environment fault, empty trace. -/
def glW : GLState :=
  { bufContents := [default], bufMapped := false, mapFails := false,
    trace := [] }

/-- Concrete pixel buffer used by the guard witnesses. -/
def pbW : PixelBuffer := { raw_buffer := 5, length := 2 }

/-- The framebuffer produced by `init_with_ext` at width 2, height 3. -/
def fbI : Framebuffer :=
  { width := 2, height := 3, pixel_buffer := { raw_buffer := 5, length := 6 },
    texture := 6, vao := 4, program := 3 }

/-- The driver state produced by `init_with_ext` at width 2, height 3. -/
def glI : GLState :=
  { bufContents := List.replicate 6 default, bufMapped := false,
    mapFails := false,
    trace := [GLEvent.bindBuffer PIXEL_UNPACK_BUFFER 5,
              GLEvent.bufferDataSize] }

/-- The guard produced by acquiring `fbI`'s pixel buffer in state `glI`. -/
def mI : MMap :=
  { buffer := { raw_buffer := 5, length := 6 }, mapped_memory := 1,
    view := List.replicate 6 default }

/-- The driver state after acquiring `fbI`'s pixel buffer in state `glI`. -/
def glI2 : GLState :=
  { bufContents := List.replicate 6 default, bufMapped := true,
    mapFails := false,
    trace := [GLEvent.bindBuffer PIXEL_UNPACK_BUFFER 5,
              GLEvent.bufferDataSize,
              GLEvent.bindBuffer PIXEL_UNPACK_BUFFER 5,
              GLEvent.mapBufferRange] }

@[simp] theorem GLState.bufMapped_emit (gl : GLState) (e : GLEvent) :
    (gl.emit e).bufMapped = gl.bufMapped := rfl

@[simp] theorem GLState.mapFails_emit (gl : GLState) (e : GLEvent) :
    (gl.emit e).mapFails = gl.mapFails := rfl

@[simp] theorem GLState.bufContents_emit (gl : GLState) (e : GLEvent) :
    (gl.emit e).bufContents = gl.bufContents := rfl

@[simp] theorem GLState.trace_emit (gl : GLState) (e : GLEvent) :
    (gl.emit e).trace = gl.trace ++ [e] := rfl

/-- `pickStep` returns one of its two arguments. -/
theorem pickStep_eq_or (accum config : Config) :
    pickStep accum config = config ∨ pickStep accum config = accum := by
  dsimp only [pickStep]
  split <;> simp

/-- When both arguments have sample count `n`, the result of `pickStep`
supports transparency iff either argument does. -/
theorem pickStep_transparent_of_eq_samples (accum config : Config) (n : Nat)
    (ha : accum.num_samples = n) (hc : config.num_samples = n) :
    (pickStep accum config).supports_transparency.getD false =
      ((accum.supports_transparency.getD false) ||
        (config.supports_transparency.getD false)) := by
  unfold pickStep
  rw [ha, hc]
  simp only [Nat.lt_irrefl, decide_False, Bool.or_false]
  cases hA : accum.supports_transparency.getD false <;>
    cases hC : config.supports_transparency.getD false <;>
    simp [hA, hC]

/-- Folding `pickStep` over candidates of equal sample count yields a
configuration that supports transparency iff the accumulator or some
candidate does. -/
theorem foldl_pickStep_transparent (rest : List Config) (n : Nat) :
    ∀ accum : Config, accum.num_samples = n →
      (∀ x ∈ rest, x.num_samples = n) →
      ((rest.foldl pickStep accum).supports_transparency.getD false =
        ((accum.supports_transparency.getD false) ||
          rest.any fun x => x.supports_transparency.getD false)) := by
  induction rest with
  | nil => intro accum _ _; simp
  | cons c cs ih =>
    intro accum ha hr
    have hc : c.num_samples = n := hr c (List.mem_cons_self c cs)
    have hstep : (pickStep accum c).num_samples = n := by
      rcases pickStep_eq_or accum c with h | h <;> rw [h] <;> assumption
    have hcs : ∀ x ∈ cs, x.num_samples = n := fun x hx => hr x (List.mem_cons_of_mem c hx)
    rw [List.foldl_cons, ih (pickStep accum c) hstep hcs,
      pickStep_transparent_of_eq_samples accum c n ha hc, List.any_cons,
      Bool.or_assoc]

/-- Taking a list's own length with any default recovers the list. -/
theorem takeD_length_self {α : Type} (l : List α) (d : α) :
    List.takeD l.length l d = l := by
  simpa using @List.takeD_left' α l [] l.length d rfl

/-- A successfully produced guard is over the buffer that was passed in. -/
theorem mmap_new_ok_buffer (gl : GLState) (buffer : PixelBuffer) (m : MMap)
    (gl' : GLState) (h : MMap.new gl buffer = .ok (m, gl')) :
    m.buffer = buffer := by
  rw [MMap.new] at h
  by_cases hmap : ((gl.bind_buffer PIXEL_UNPACK_BUFFER
      buffer.raw_buffer).map_buffer_range).1 = 0
  · rw [if_pos hmap] at h
    exact absurd h (by simp)
  · rw [if_neg hmap] at h
    simp only [Except.ok.injEq, Prod.mk.injEq] at h
    obtain ⟨hm, _⟩ := h
    subst hm
    rfl

/-- C1: the claim as stated is false on the code.  With candidates
`[{transparency := some true, samples := 4}, {transparency := some false, samples := 0}]`,
the first candidate supports transparency, yet the reduction selects the
second (its sample-count comparison is unconditional), which does not. -/
theorem gl_config_picker_transparency_counterexample :
    Framebuffer.gl_config_picker
        [⟨some true, 4⟩, ⟨some false, 0⟩] = some ⟨some false, 0⟩ ∧
      (Config.mk (some true) 4) ∈ [Config.mk (some true) 4, Config.mk (some false) 0] ∧
      (Config.supports_transparency ⟨some true, 4⟩).getD false = true ∧
      (Config.supports_transparency ⟨some false, 0⟩).getD false = false := by
  refine ⟨?_, ?_, ?_, ?_⟩ <;> decide

/-- C1 (amended): a candidate replaces the accumulator exactly when it
supports transparency and the accumulator does not, or it has strictly fewer
samples; consequently, whenever all candidates have the same sample count,
the selected configuration supports transparency iff at least one candidate
does. -/
theorem gl_config_picker_transparent_of_eq_samples (configs : List Config) (n : Nat)
    (c : Config)
    (hn : ∀ x ∈ configs, x.num_samples = n)
    (hpick : Framebuffer.gl_config_picker configs = some c)
    (hex : ∃ x ∈ configs, x.supports_transparency.getD false = true) :
    c.supports_transparency.getD false = true := by
  match configs, hpick with
  | c0 :: rest, hpick =>
    have h0 : c0.num_samples = n := hn c0 (List.mem_cons_self c0 rest)
    have hrest : ∀ x ∈ rest, x.num_samples = n :=
      fun x hx => hn x (List.mem_cons_of_mem c0 hx)
    have hfold := foldl_pickStep_transparent rest n c0 h0 hrest
    have hc : c = rest.foldl pickStep c0 := by
      simpa [Framebuffer.gl_config_picker] using hpick.symm
    rw [hc, hfold]
    rcases hex with ⟨x, hx, hxt⟩
    rcases List.mem_cons.mp hx with h | h
    · rw [← h, hxt]; simp
    · have : rest.any (fun x => x.supports_transparency.getD false) = true :=
        List.any_eq_true.mpr ⟨x, h, hxt⟩
      rw [this]; simp

/-- Witness for the amended C1 theorem at a concrete candidate list. -/
theorem gl_config_picker_transparent_witness :
    (Config.supports_transparency ⟨some true, 2⟩).getD false = true :=
  gl_config_picker_transparent_of_eq_samples
    [⟨some false, 2⟩, ⟨some true, 2⟩] 2 ⟨some true, 2⟩
    (by decide)
    (by decide)
    ⟨⟨some true, 2⟩, by decide, by decide⟩

/-- C2: on a draw call whose painter returns normally, the driver calls are
exactly: clear the color buffer; acquire the guard (bind the pixel buffer,
map it); invoke the painter on the guard's view; release the guard (re-bind,
unmap); bind texture and buffer and transfer the buffer into the texture;
bind program and vertex array and issue a 4-vertex triangle-strip draw;
swap buffers. -/
theorem draw_step_sequence (fb : Framebuffer) (f : List Pixel → List Pixel)
    (gl : GLState) (h1 : gl.bufMapped = false) (h2 : gl.mapFails = false)
    (h3 : gl.trace = []) :
    glPanicked (Framebuffer.draw fb (fun v => some (f v)) gl) = false ∧
      (glExit (Framebuffer.draw fb (fun v => some (f v)) gl)).trace =
        [GLEvent.clear COLOR_BUFFER_BIT,
         GLEvent.bindBuffer PIXEL_UNPACK_BUFFER fb.pixel_buffer.raw_buffer,
         GLEvent.mapBufferRange,
         GLEvent.paint,
         GLEvent.bindBuffer PIXEL_UNPACK_BUFFER fb.pixel_buffer.raw_buffer,
         GLEvent.unmapBuffer,
         GLEvent.bindTexture TEXTURE_2D fb.texture,
         GLEvent.bindBuffer PIXEL_UNPACK_BUFFER fb.pixel_buffer.raw_buffer,
         GLEvent.texSubImage2D fb.texture 0 0 0 fb.width fb.height RGBA UNSIGNED_BYTE,
         GLEvent.useProgram fb.program,
         GLEvent.bindVertexArray fb.vao,
         GLEvent.drawArrays TRIANGLE_STRIP 0 4,
         GLEvent.swapBuffers] := by
  obtain ⟨bc, bm, mf, tr⟩ := gl
  simp only [GLState.bufMapped] at h1
  simp only [GLState.mapFails] at h2
  simp only [GLState.trace] at h3
  subst h1; subst h2; subst h3
  exact ⟨rfl, rfl⟩

/-- Witness for C2 at a concrete framebuffer, driver state and painter. -/
theorem draw_step_sequence_witness :
    glPanicked (Framebuffer.draw fbW (fun v => some (id v)) glW) = false ∧
      (glExit (Framebuffer.draw fbW (fun v => some (id v)) glW)).trace =
        [GLEvent.clear COLOR_BUFFER_BIT,
         GLEvent.bindBuffer PIXEL_UNPACK_BUFFER fbW.pixel_buffer.raw_buffer,
         GLEvent.mapBufferRange,
         GLEvent.paint,
         GLEvent.bindBuffer PIXEL_UNPACK_BUFFER fbW.pixel_buffer.raw_buffer,
         GLEvent.unmapBuffer,
         GLEvent.bindTexture TEXTURE_2D fbW.texture,
         GLEvent.bindBuffer PIXEL_UNPACK_BUFFER fbW.pixel_buffer.raw_buffer,
         GLEvent.texSubImage2D fbW.texture 0 0 0 fbW.width fbW.height RGBA UNSIGNED_BYTE,
         GLEvent.useProgram fbW.program,
         GLEvent.bindVertexArray fbW.vao,
         GLEvent.drawArrays TRIANGLE_STRIP 0 4,
         GLEvent.swapBuffers] :=
  draw_step_sequence fbW id glW rfl rfl rfl

/-- `Framebuffer.draw` on an idle driver state, reduced up to the painter's
outcome: acquisition succeeds, and the exit state is determined by whether
the painter returns (`some`) or panics (`none`), with the guard's release
events present either way. -/
theorem draw_reduce (fb : Framebuffer)
    (painter : List Pixel → Option (List Pixel)) (bc : List Pixel) :
    Framebuffer.draw fb painter ⟨bc, false, false, []⟩ =
      (match painter (List.takeD fb.pixel_buffer.length bc default) with
       | none => Except.error
           ⟨bc, false, false,
            [GLEvent.clear COLOR_BUFFER_BIT,
             GLEvent.bindBuffer PIXEL_UNPACK_BUFFER fb.pixel_buffer.raw_buffer,
             GLEvent.mapBufferRange,
             GLEvent.paint,
             GLEvent.bindBuffer PIXEL_UNPACK_BUFFER fb.pixel_buffer.raw_buffer,
             GLEvent.unmapBuffer]⟩
       | some written => Except.ok
           ⟨written, false, false,
            [GLEvent.clear COLOR_BUFFER_BIT,
             GLEvent.bindBuffer PIXEL_UNPACK_BUFFER fb.pixel_buffer.raw_buffer,
             GLEvent.mapBufferRange,
             GLEvent.paint,
             GLEvent.bindBuffer PIXEL_UNPACK_BUFFER fb.pixel_buffer.raw_buffer,
             GLEvent.unmapBuffer,
             GLEvent.bindTexture TEXTURE_2D fb.texture,
             GLEvent.bindBuffer PIXEL_UNPACK_BUFFER fb.pixel_buffer.raw_buffer,
             GLEvent.texSubImage2D fb.texture 0 0 0 fb.width fb.height RGBA UNSIGNED_BYTE,
             GLEvent.useProgram fb.program,
             GLEvent.bindVertexArray fb.vao,
             GLEvent.drawArrays TRIANGLE_STRIP 0 4,
             GLEvent.swapBuffers]⟩) := rfl

/-- C7: on every exit path of `draw` — painter returning normally or
panicking mid-fill — the guard's release (unmap) runs exactly once per
successful acquisition, and it runs before any buffer-to-texture upload. -/
theorem draw_unmap_on_every_path (fb : Framebuffer)
    (painter : List Pixel → Option (List Pixel)) (gl : GLState)
    (h1 : gl.bufMapped = false) (h2 : gl.mapFails = false)
    (h3 : gl.trace = []) :
    unmapOnceBeforeUpload (glExit (Framebuffer.draw fb painter gl)).trace := by
  obtain ⟨bc, bm, mf, tr⟩ := gl
  simp only [GLState.bufMapped] at h1
  simp only [GLState.mapFails] at h2
  simp only [GLState.trace] at h3
  subst h1; subst h2; subst h3
  rw [draw_reduce]
  cases painter (List.takeD fb.pixel_buffer.length bc default) with
  | none =>
    refine ⟨[GLEvent.clear COLOR_BUFFER_BIT,
             GLEvent.bindBuffer PIXEL_UNPACK_BUFFER fb.pixel_buffer.raw_buffer,
             GLEvent.mapBufferRange,
             GLEvent.paint,
             GLEvent.bindBuffer PIXEL_UNPACK_BUFFER fb.pixel_buffer.raw_buffer],
           [], rfl, ?_, ?_⟩
    · intro e he
      fin_cases he <;> exact ⟨fun h => GLEvent.noConfusion h,
        fun _ _ _ _ _ _ _ _ h => GLEvent.noConfusion h⟩
    · intro e he
      exact absurd he (List.not_mem_nil e)
  | some written =>
    refine ⟨[GLEvent.clear COLOR_BUFFER_BIT,
             GLEvent.bindBuffer PIXEL_UNPACK_BUFFER fb.pixel_buffer.raw_buffer,
             GLEvent.mapBufferRange,
             GLEvent.paint,
             GLEvent.bindBuffer PIXEL_UNPACK_BUFFER fb.pixel_buffer.raw_buffer],
           [GLEvent.bindTexture TEXTURE_2D fb.texture,
            GLEvent.bindBuffer PIXEL_UNPACK_BUFFER fb.pixel_buffer.raw_buffer,
            GLEvent.texSubImage2D fb.texture 0 0 0 fb.width fb.height RGBA UNSIGNED_BYTE,
            GLEvent.useProgram fb.program,
            GLEvent.bindVertexArray fb.vao,
            GLEvent.drawArrays TRIANGLE_STRIP 0 4,
            GLEvent.swapBuffers], rfl, ?_, ?_⟩
    · intro e he
      fin_cases he <;> exact ⟨fun h => GLEvent.noConfusion h,
        fun _ _ _ _ _ _ _ _ h => GLEvent.noConfusion h⟩
    · intro e he
      fin_cases he <;> exact fun h => GLEvent.noConfusion h

/-- Witness for C7 at a concrete framebuffer and a painter that panics. -/
theorem draw_unmap_witness :
    unmapOnceBeforeUpload
      (glExit (Framebuffer.draw fbW (fun _ => none) glW)).trace :=
  draw_unmap_on_every_path fbW (fun _ => none) glW rfl rfl rfl

/-- C4: acquiring a guard while the buffer is already mapped (another guard
is still live) is detected: the driver refuses the second mapping with a
null pointer and `MMap::new` panics, so no second guard is produced. -/
theorem mmap_new_already_mapped_panics (gl : GLState) (buffer : PixelBuffer)
    (h : gl.bufMapped = true) :
    glPanicked (MMap.new gl buffer) = true ∧
      mmapGuard (MMap.new gl buffer) = none := by
  rw [MMap.new]
  simp [GLState.map_buffer_range, GLState.bind_buffer, h, glPanicked, mmapGuard]

/-- Witness for C4 at a concrete already-mapped driver state. -/
theorem mmap_new_already_mapped_witness :
    ({ bufContents := [default, default], bufMapped := true, mapFails := false,
       trace := [] } : GLState).bufMapped = true ∧
      (glPanicked (MMap.new
          { bufContents := [default, default], bufMapped := true,
            mapFails := false, trace := [] } pbW) = true ∧
        mmapGuard (MMap.new
          { bufContents := [default, default], bufMapped := true,
            mapFails := false, trace := [] } pbW) = none) :=
  ⟨rfl, mmap_new_already_mapped_panics
    { bufContents := [default, default], bufMapped := true, mapFails := false,
      trace := [] } pbW rfl⟩

/-- C6: when the driver returns a null pointer for the mapping request,
`MMap::new` panics (process abort, not a recoverable error) and no guard is
produced. -/
theorem mmap_new_null_mapping_panics (gl : GLState) (buffer : PixelBuffer)
    (h : gl.mapFails = true) :
    glPanicked (MMap.new gl buffer) = true ∧
      mmapGuard (MMap.new gl buffer) = none := by
  rw [MMap.new]
  simp [GLState.map_buffer_range, GLState.bind_buffer, h, glPanicked, mmapGuard]

/-- Witness for C6 at a concrete faulting driver state. -/
theorem mmap_new_null_mapping_witness :
    ({ bufContents := [default, default], bufMapped := false, mapFails := true,
       trace := [] } : GLState).mapFails = true ∧
      (glPanicked (MMap.new
          { bufContents := [default, default], bufMapped := false,
            mapFails := true, trace := [] } pbW) = true ∧
        mmapGuard (MMap.new
          { bufContents := [default, default], bufMapped := false,
            mapFails := true, trace := [] } pbW) = none) :=
  ⟨rfl, mmap_new_null_mapping_panics
    { bufContents := [default, default], bufMapped := false, mapFails := true,
      trace := [] } pbW rfl⟩

/-- C10: every guard that `MMap::new` actually produces holds a non-null
mapped pointer (the constructor panics before producing one otherwise), and
its `as_mut` view is well-formed: exactly `buffer.length` pixels over the
guard's buffer. -/
theorem mmap_guard_nonnull (gl : GLState) (buffer : PixelBuffer) (m : MMap)
    (gl' : GLState) (h : MMap.new gl buffer = .ok (m, gl')) :
    m.mapped_memory ≠ 0 ∧ m.buffer = buffer ∧
      m.as_mut.length = m.buffer.length := by
  rw [MMap.new] at h
  by_cases hmap : ((gl.bind_buffer PIXEL_UNPACK_BUFFER
      buffer.raw_buffer).map_buffer_range).1 = 0
  · rw [if_pos hmap] at h
    exact absurd h (by simp)
  · rw [if_neg hmap] at h
    simp only [Except.ok.injEq, Prod.mk.injEq] at h
    obtain ⟨hm, hgl⟩ := h
    subst hm
    exact ⟨hmap, rfl, List.takeD_length _ _ _⟩

/-- Witness for C10: a concrete successful acquisition. -/
theorem mmap_guard_nonnull_witness :
    (⟨pbW, 1, [default, default]⟩ : MMap).mapped_memory ≠ 0 ∧
      (⟨pbW, 1, [default, default]⟩ : MMap).buffer = pbW ∧
      (MMap.as_mut ⟨pbW, 1, [default, default]⟩).length =
        (⟨pbW, 1, [default, default]⟩ : MMap).buffer.length :=
  mmap_guard_nonnull
    { bufContents := [default, default], bufMapped := false, mapFails := false,
      trace := [] } pbW ⟨pbW, 1, [default, default]⟩
    { bufContents := [default, default], bufMapped := true, mapFails := false,
      trace := [GLEvent.bindBuffer PIXEL_UNPACK_BUFFER 5,
                GLEvent.mapBufferRange] } rfl

/-- C5: writing `w` through a guard's view, releasing the guard (unmap syncs
the writes to the GPU buffer) and then acquiring a fresh guard over the same
buffer succeeds and exposes exactly the written values — our driver model
has no GPU-side mutation, matching the claim's proviso. -/
theorem mmap_roundtrip (buf : PixelBuffer) (m : MMap) (gl : GLState)
    (w : List Pixel) (_hb : m.buffer = buf) (hf : gl.mapFails = false)
    (hw : w.length = buf.length) :
    (mmapGuard (MMap.new (MMap.drop { m with view := w } gl) buf)).map
        MMap.as_mut = some w := by
  obtain ⟨bc, bm, mf, tr⟩ := gl
  simp only [GLState.mapFails] at hf
  subst hf
  rw [MMap.drop]
  simp only [GLState.bind_buffer, GLState.unmap_buffer, GLState.emit]
  rw [MMap.new]
  simp only [GLState.bind_buffer, GLState.map_buffer_range, GLState.emit]
  simp [mmapGuard, MMap.as_mut, ← hw, takeD_length_self]

/-- Witness for C5: a concrete write of two pixels round-trips. -/
theorem mmap_roundtrip_witness :
    (mmapGuard (MMap.new
        (MMap.drop { buffer := pbW, mapped_memory := 1,
                     view := [⟨9, 9, 9, 9⟩, ⟨7, 7, 7, 7⟩] }
          { bufContents := [default, default], bufMapped := true,
            mapFails := false, trace := [] }) pbW)).map MMap.as_mut =
      some [⟨9, 9, 9, 9⟩, ⟨7, 7, 7, 7⟩] :=
  mmap_roundtrip pbW
    { buffer := pbW, mapped_memory := 1, view := [default, default] }
    { bufContents := [default, default], bufMapped := true, mapFails := false,
      trace := [] }
    [⟨9, 9, 9, 9⟩, ⟨7, 7, 7, 7⟩] rfl rfl rfl

/-- C3: a framebuffer initialized with `width` and `height` stores a pixel
buffer of length `width * height`; the record is immutable (no operation of
the model rebinds it), and every guard acquired over that buffer exposes a
pixel view of exactly `width * height` elements. -/
theorem pixel_buffer_length_invariant (configs : List Config) (w h : Nat)
    (fb : Framebuffer) (gl gl1 gl2 : GLState) (m : MMap)
    (hinit : Framebuffer.init_with_ext configs w h = some (fb, gl))
    (hnew : MMap.new gl1 fb.pixel_buffer = .ok (m, gl2)) :
    fb.pixel_buffer.length = w * h ∧ m.buffer.length = w * h ∧
      m.as_mut.length = w * h := by
  have hbuf : fb.pixel_buffer.length = w * h := by
    rw [Framebuffer.init_with_ext] at hinit
    cases hc : Framebuffer.gl_config_picker configs with
    | none => rw [hc] at hinit; exact absurd hinit (by simp)
    | some cfg =>
      rw [hc] at hinit
      simp only [Option.some.injEq, Prod.mk.injEq] at hinit
      obtain ⟨hfb, _⟩ := hinit
      rw [← hfb]
      rfl
  have hmb : m.buffer = fb.pixel_buffer := mmap_new_ok_buffer gl1 _ m gl2 hnew
  refine ⟨hbuf, ?_, ?_⟩
  · rw [hmb]; exact hbuf
  · rw [MMap.as_mut, List.takeD_length, hmb]; exact hbuf

/-- Witness for C3: initialization at width 2, height 3 followed by a
concrete acquisition. -/
theorem pixel_buffer_length_witness :
    fbI.pixel_buffer.length = 2 * 3 ∧ mI.buffer.length = 2 * 3 ∧
      mI.as_mut.length = 2 * 3 :=
  pixel_buffer_length_invariant [⟨some true, 0⟩] 2 3 fbI glI glI glI2 mI
    rfl rfl

/-- C9: with an empty candidate configuration set the picker's `.unwrap()`
panics, so initialization fails fatally and no partial framebuffer is
returned. -/
theorem init_no_config_fatal (w h : Nat) :
    Framebuffer.gl_config_picker [] = none ∧
      Framebuffer.init_with_ext [] w h = none :=
  ⟨rfl, rfl⟩

/-- C8: when the driver reports a failed compilation, `compile_shader` logs
the driver's diagnostic text and still returns the shader object (it is a
total function: initialization continues); `create_shader_program` handles a
link failure the same way. -/
theorem shader_soft_failure (shader program vs fs : Nat)
    (source log1 log2 : String) :
    Framebuffer.compile_shader shader source false log1 =
      (shader, ["ERROR::SHADER::COMPILATION_FAILED\n" ++ log1]) ∧
    Framebuffer.create_shader_program program vs fs false log2 =
      (program, ["ERROR::PROGRAM::LINKING_FAILED\n" ++ log2]) :=
  ⟨rfl, rfl⟩
